import Mathlib

/-!
# DFPlayerMini: frame encoder, checksum and receive state machine

A shallow embedding of `src/DFPlayerMini.hpp` and `src/DFPlayerMini.cpp`.

Bytes (`uint8_t`) and 16-bit words (`uint16_t`) are natural numbers; every
narrowing conversion of the source (`static_cast<uint8_t>`, the `uint16_t`
return of `calChecksum`) is written as an explicit `% 256` / `% 65536`.
Arithmetic on promoted operands (`int` in C++) is done in `Int`, where
`~~~` is the two's-complement bitwise complement.

The object state is the pair of private members `_sendStack`, `_recvStack`;
each member function is a function from state (and arguments) to state.
The disabled member function `parseFeedback` is embedded from its text in
`DFPlayerMini.cpp`, with the serial port and the timer as inputs. It is not
compiled into the library; the frame receiver that the specification
describes is modelled next to it.
-/

namespace DFPLAYERMINI

/-! ## Constants of the header -/

namespace PACKET
/-- Total number of bytes in a packet. -/
def SIZE : Nat := 10
/-- Start byte. -/
def START : Nat := 0x7E
/-- Version byte. -/
def VERSION : Nat := 0xFF
/-- Length byte. -/
def LEN : Nat := 0x6
namespace FEEDBACK
/-- Feedback required. -/
def YES : Nat := 1
/-- Feedback not required. -/
def NO : Nat := 0
end FEEDBACK
/-- End byte. -/
def END : Nat := 0xEF
end PACKET

namespace LIMIT
def MIN_ROOT_TRACK : Nat := 0
def MAX_ROOT_TRACK : Nat := 2999
def MIN_FOLDER : Nat := 1
def MAX_FOLDER : Nat := 99
def MIN_FOLDER_TRACK : Nat := 1
def MAX_FOLDER_TRACK : Nat := 255
def MIN_VOLUME : Nat := 0
def MAX_VOLUME : Nat := 30
end LIMIT

namespace CONTROLCMD
def PLAY_NEXT : Nat := 0x01
def PLAY_PREV : Nat := 0x02
def PLAY_TRACK : Nat := 0x03
def PLAY_FOLDER_TRACK : Nat := 0x0F
def PLAY : Nat := 0x0D
def PAUSE : Nat := 0x0E
def INC_VOL : Nat := 0x04
def DEC_VOL : Nat := 0x05
def SET_VOL : Nat := 0x06
def SET_EQ : Nat := 0x07
def SET_PLAYBACK_MODE : Nat := 0x08
def SET_REPEAT_PLAY : Nat := 0x11
def SET_PLAYBACK_SRC : Nat := 0x09
def SET_AUDIO_AMP : Nat := 0x10
def MODE_STANDBY : Nat := 0x0A
def MODE_NORMAL : Nat := 0x0B
def MODE_RESET : Nat := 0x0C
end CONTROLCMD

namespace PLAYBACK_SRC
def U : Nat := 1
def TF : Nat := 2
def AUX : Nat := 3
def SLEEP : Nat := 4
end PLAYBACK_SRC

/-! ## The packet record and the object state -/

/-- Struct `stack_t`: one serial packet, ten byte fields in wire order. -/
structure stack_t where
  start_byte : Nat
  version : Nat
  length : Nat
  command : Nat
  feedback : Nat
  paramMSB : Nat
  paramLSB : Nat
  checksumMSB : Nat
  checksumLSB : Nat
  end_byte : Nat
  deriving DecidableEq, Repr

/-- Every field of the packet is a byte. -/
def stack_t.isBytes (s : stack_t) : Prop :=
  s.start_byte < 256 ∧ s.version < 256 ∧ s.length < 256 ∧ s.command < 256 ∧
  s.feedback < 256 ∧ s.paramMSB < 256 ∧ s.paramLSB < 256 ∧
  s.checksumMSB < 256 ∧ s.checksumLSB < 256 ∧ s.end_byte < 256

instance (s : stack_t) : Decidable s.isBytes := by
  unfold stack_t.isBytes; infer_instance

/-- Integer sum of the six content bytes of a packet, with no truncation. -/
def stack_t.contentSum (s : stack_t) : Nat :=
  s.version + s.length + s.command + s.feedback + s.paramMSB + s.paramLSB

/-- Class `DFPlayerMini`: the data members. -/
structure DFPlayerMini where
  _sendStack : stack_t
  _recvStack : stack_t
  deriving DecidableEq, Repr

namespace DFPlayerMini

/-- Default member initialiser of `_sendStack` in the class body. -/
def sendStackInit : stack_t :=
  { start_byte := PACKET.START
    version := PACKET.VERSION
    length := PACKET.LEN
    command := 0
    feedback := PACKET.FEEDBACK.YES
    paramMSB := 0
    paramLSB := 0
    checksumMSB := 0
    checksumLSB := 0
    end_byte := PACKET.END }

/-- Constructor `DFPlayerMini(bool feedback)`. The member `_recvStack` has no
initialiser in the source; its indeterminate contents are the argument
`recvInit`. -/
def new (feedback : Bool) (recvInit : stack_t) : DFPlayerMini :=
  let this : DFPlayerMini := { _sendStack := sendStackInit, _recvStack := recvInit }
  if feedback then
    { this with _sendStack := { this._sendStack with feedback := PACKET.FEEDBACK.YES } }
  else
    { this with _sendStack := { this._sendStack with feedback := PACKET.FEEDBACK.NO } }

/-- Static `calChecksum(stack_t &)`: the six bytes are promoted and added as
integers, complemented, incremented, and the result is converted to
`uint16_t`. -/
def calChecksum (_stack : stack_t) : Nat :=
  (((~~~ (Int.ofNat (_stack.version + _stack.length + _stack.command +
      _stack.feedback + _stack.paramMSB + _stack.paramLSB))) + 1) % 65536).toNat

/-- Member `setChecksum()`: store the checksum of `_sendStack` big-endian. -/
def setChecksum (this : DFPlayerMini) : DFPlayerMini :=
  let checksum := calChecksum this._sendStack
  { this with _sendStack :=
      { this._sendStack with
          checksumMSB := (checksum >>> 8) % 256
          checksumLSB := checksum % 256 } }

/-! ## Encoder operations -/

/-- Member `playNext()`. -/
def playNext (this : DFPlayerMini) : DFPlayerMini :=
  setChecksum { this with _sendStack :=
    { this._sendStack with
        command := CONTROLCMD.PLAY_NEXT
        paramMSB := 0
        paramLSB := 0 } }

/-- Member `playPrevious()`. -/
def playPrevious (this : DFPlayerMini) : DFPlayerMini :=
  setChecksum { this with _sendStack :=
    { this._sendStack with
        command := CONTROLCMD.PLAY_PREV
        paramMSB := 0
        paramLSB := 0 } }

/-- Member `playTrack(uint16_t trackNum)`. -/
def playTrack (this : DFPlayerMini) (trackNum : Nat) : DFPlayerMini :=
  let trackNum := if trackNum ≤ LIMIT.MAX_ROOT_TRACK then trackNum else LIMIT.MAX_ROOT_TRACK
  setChecksum { this with _sendStack :=
    { this._sendStack with
        command := CONTROLCMD.PLAY_TRACK
        paramMSB := (trackNum >>> 8) % 256
        paramLSB := (trackNum &&& 0xFF) % 256 } }

/-- Member `playFolderTrack(uint8_t folderNum, uint8_t trackNum)`. The upper
clamp of `trackNum` is commented out in the source and is not applied. -/
def playFolderTrack (this : DFPlayerMini) (folderNum trackNum : Nat) : DFPlayerMini :=
  let folderNum := if folderNum ≥ LIMIT.MIN_FOLDER then folderNum else LIMIT.MIN_FOLDER
  let folderNum := if folderNum ≤ LIMIT.MAX_FOLDER then folderNum else LIMIT.MAX_FOLDER
  let trackNum := if trackNum ≥ LIMIT.MIN_FOLDER_TRACK then trackNum else LIMIT.MIN_FOLDER_TRACK
  setChecksum { this with _sendStack :=
    { this._sendStack with
        command := CONTROLCMD.PLAY_FOLDER_TRACK
        paramMSB := folderNum
        paramLSB := trackNum } }

/-- Member `pause()`. -/
def pause (this : DFPlayerMini) : DFPlayerMini :=
  setChecksum { this with _sendStack :=
    { this._sendStack with
        command := CONTROLCMD.PAUSE
        paramMSB := 0
        paramLSB := 0 } }

/-- Member `incVolume()`. -/
def incVolume (this : DFPlayerMini) : DFPlayerMini :=
  setChecksum { this with _sendStack :=
    { this._sendStack with
        command := CONTROLCMD.INC_VOL
        paramMSB := 0
        paramLSB := 0 } }

/-- Member `decVolume()`. -/
def decVolume (this : DFPlayerMini) : DFPlayerMini :=
  setChecksum { this with _sendStack :=
    { this._sendStack with
        command := CONTROLCMD.DEC_VOL
        paramMSB := 0
        paramLSB := 0 } }

/-- Member `setVolume(uint8_t volume)`. -/
def setVolume (this : DFPlayerMini) (volume : Nat) : DFPlayerMini :=
  let volume := if volume ≤ LIMIT.MAX_VOLUME then volume else LIMIT.MAX_VOLUME
  setChecksum { this with _sendStack :=
    { this._sendStack with
        command := CONTROLCMD.SET_VOL
        paramMSB := 0
        paramLSB := volume } }

/-- Member `playbackSource(uint8_t source)`: the `switch` keeps the four
listed sources and replaces every other value by `PLAYBACK_SRC::TF`. -/
def playbackSource (this : DFPlayerMini) (source : Nat) : DFPlayerMini :=
  let source :=
    if source = PLAYBACK_SRC.U ∨ source = PLAYBACK_SRC.TF ∨
        source = PLAYBACK_SRC.AUX ∨ source = PLAYBACK_SRC.SLEEP then source
    else PLAYBACK_SRC.TF
  setChecksum { this with _sendStack :=
    { this._sendStack with
        command := CONTROLCMD.SET_PLAYBACK_SRC
        paramMSB := 0
        paramLSB := source } }

/-- Member `standbyMode()`. -/
def standbyMode (this : DFPlayerMini) : DFPlayerMini :=
  setChecksum { this with _sendStack :=
    { this._sendStack with
        command := CONTROLCMD.MODE_STANDBY
        paramMSB := 0
        paramLSB := 0 } }

/-- Member `normalMode()`. -/
def normalMode (this : DFPlayerMini) : DFPlayerMini :=
  setChecksum { this with _sendStack :=
    { this._sendStack with
        command := CONTROLCMD.MODE_NORMAL
        paramMSB := 0
        paramLSB := 0 } }

/-- Member `reset()`. -/
def reset (this : DFPlayerMini) : DFPlayerMini :=
  setChecksum { this with _sendStack :=
    { this._sendStack with
        command := CONTROLCMD.MODE_RESET
        paramMSB := 0
        paramLSB := 0 } }

/-! ## Accessors -/

/-- Member `getStack(uint8_t *_stack) const`: the ten bytes written to
`_stack[0]` .. `_stack[9]`, in index order. The object is not modified. -/
def getStackBytes (this : DFPlayerMini) : List Nat :=
  [ this._sendStack.start_byte,
    this._sendStack.version,
    this._sendStack.length,
    this._sendStack.command,
    this._sendStack.feedback,
    this._sendStack.paramMSB,
    this._sendStack.paramLSB,
    this._sendStack.checksumMSB,
    this._sendStack.checksumLSB,
    this._sendStack.end_byte ]

/-- Member `getStack(stack_t &_stack) const`: the record assigned to `_stack`.
The object is not modified. -/
def getStackRecord (this : DFPlayerMini) : stack_t :=
  this._sendStack

/-- Member `setStack(uint8_t *_stack)`: `_stack[i]` is element `i` of the
list; the source reads indices 0 to 9 and the caller supplies ten bytes. -/
def setStack (this : DFPlayerMini) (_stack : List Nat) : DFPlayerMini :=
  { this with _recvStack :=
      { start_byte := _stack.getD 0 0
        version := _stack.getD 1 0
        length := _stack.getD 2 0
        command := _stack.getD 3 0
        feedback := _stack.getD 4 0
        paramMSB := _stack.getD 5 0
        paramLSB := _stack.getD 6 0
        checksumMSB := _stack.getD 7 0
        checksumLSB := _stack.getD 8 0
        end_byte := _stack.getD 9 0 } }

end DFPlayerMini

/-! ## Call traces -/

/-- One call of an encoder operation, with its arguments. -/
inductive Command where
  | playNext
  | playPrevious
  | playTrack (trackNum : Nat)
  | playFolderTrack (folderNum trackNum : Nat)
  | pause
  | incVolume
  | decVolume
  | setVolume (volume : Nat)
  | playbackSource (source : Nat)
  | standbyMode
  | normalMode
  | reset
  deriving DecidableEq, Repr

/-- The effect of one encoder call on the object. -/
def Command.apply (c : Command) (this : DFPlayerMini) : DFPlayerMini :=
  match c with
  | .playNext => this.playNext
  | .playPrevious => this.playPrevious
  | .playTrack trackNum => this.playTrack trackNum
  | .playFolderTrack folderNum trackNum => this.playFolderTrack folderNum trackNum
  | .pause => this.pause
  | .incVolume => this.incVolume
  | .decVolume => this.decVolume
  | .setVolume volume => this.setVolume volume
  | .playbackSource source => this.playbackSource source
  | .standbyMode => this.standbyMode
  | .normalMode => this.normalMode
  | .reset => this.reset

/-- One call of any public member function. The two `getStack` overloads are
`const`: they return a value to the caller and leave the object as it is. -/
inductive Call where
  | encode (c : Command)
  | getStackBytes
  | getStackRecord
  | setStack (_stack : List Nat)
  deriving DecidableEq, Repr

/-- The effect of one public call on the object. -/
def Call.apply (c : Call) (this : DFPlayerMini) : DFPlayerMini :=
  match c with
  | .encode cmd => cmd.apply this
  | .getStackBytes => this
  | .getStackRecord => this
  | .setStack _stack => this.setStack _stack

/-- The object after a finite sequence of public calls, first call first. -/
def run (calls : List Call) (this : DFPlayerMini) : DFPlayerMini :=
  calls.foldl (fun obj c => c.apply obj) this

/-! ## Receive state machine

The member function `parseFeedback` is present in `DFPlayerMini.cpp` as
disabled code. Its body is embedded as it is written there. The names it
uses that the header no longer declares (`state` and its enumerators, `SB`,
`VER`, `LEN`, `EB`, `recStack`) are supplied below.
-/

/-- Modelled from the spec: the enumeration of the values of `state`, missing
from the header. The enumerators are the `case` labels of the `switch` in
`parseFeedback`, in the order of the states of the receiver (awaiting-start,
awaiting-version, awaiting-length, awaiting-command, awaiting-feedback,
awaiting-param-msb, awaiting-param-lsb, awaiting-checksum-msb,
awaiting-checksum-lsb, awaiting-end). -/
inductive State where
  | find_start_byte
  | find_ver_byte
  | find_len_byte
  | find_command_byte
  | find_feedback_byte
  | find_param_MSB
  | find_param_LSB
  | find_checksum_MSB
  | find_checksum_LSB
  | find_end_byte
  deriving DecidableEq, Repr

/-- Modelled from the spec: the start marker `SB`, missing from the header;
the fixed start-marker value is `0x7E`. -/
def SB : Nat := 0x7E

/-- Modelled from the spec: the version constant `VER`, missing from the
header; the fixed version value is `0xFF`. -/
def VER : Nat := 0xFF

/-- Modelled from the spec: the length constant `LEN` as `parseFeedback` uses
it unqualified, missing from the header at that name; the fixed length value
is `0x06`. -/
def LEN : Nat := 0x06

/-- Modelled from the spec: the end marker `EB`, missing from the header; the
fixed end-marker value is `0xEF`. -/
def EB : Nat := 0xEF

/-- The object as `parseFeedback` sees it: the data members of the class and
the member `state`. The accumulator `recStack` of `parseFeedback` is the
receive packet `_recvStack` of the object. -/
structure Receiver where
  obj : DFPlayerMini
  state : State
  deriving DecidableEq, Repr

namespace Receiver

/-- The accumulator `recStack`. -/
def recStack (r : Receiver) : stack_t :=
  r.obj._recvStack

/-- Assignment to the accumulator `recStack`. -/
def setRecStack (r : Receiver) (s : stack_t) : Receiver :=
  { r with obj := { r.obj with _recvStack := s } }

/-- The `switch (state)` of `parseFeedback` for one received byte `recChar`.
The second component is `some b` when the case executes `return b` and `none`
when it leaves the `switch` by `break`. In `find_checksum_LSB` the call
`setChecksum()` is the member function of the class, as written. -/
def switchState (r : Receiver) (recChar : Nat) : Receiver × Option Bool :=
  match r.state with
  | .find_start_byte =>
    if recChar = SB then
      ({ r.setRecStack { r.recStack with start_byte := recChar } with
          state := .find_ver_byte }, none)
    else
      (r, none)
  | .find_ver_byte =>
    if recChar ≠ VER then
      ({ r with state := .find_start_byte }, some false)
    else
      ({ r.setRecStack { r.recStack with version := recChar } with
          state := .find_len_byte }, none)
  | .find_len_byte =>
    if recChar ≠ LEN then
      ({ r with state := .find_start_byte }, some false)
    else
      ({ r.setRecStack { r.recStack with length := recChar } with
          state := .find_command_byte }, none)
  | .find_command_byte =>
    ({ r.setRecStack { r.recStack with command := recChar } with
        state := .find_feedback_byte }, none)
  | .find_feedback_byte =>
    ({ r.setRecStack { r.recStack with feedback := recChar } with
        state := .find_param_MSB }, none)
  | .find_param_MSB =>
    ({ r.setRecStack { r.recStack with paramMSB := recChar } with
        state := .find_param_LSB }, none)
  | .find_param_LSB =>
    ({ r.setRecStack { r.recStack with paramLSB := recChar } with
        state := .find_checksum_MSB }, none)
  | .find_checksum_MSB =>
    ({ r.setRecStack { r.recStack with checksumMSB := recChar } with
        state := .find_checksum_LSB }, none)
  | .find_checksum_LSB =>
    let r1 := r.setRecStack { r.recStack with checksumLSB := recChar }
    let recChecksum := (r1.recStack.checksumMSB <<< 8) ||| r1.recStack.checksumLSB
    let r2 : Receiver := { r1 with obj := r1.obj.setChecksum }
    let calcChecksum := (r2.recStack.checksumMSB <<< 8) ||| r2.recStack.checksumLSB
    if recChecksum ≠ calcChecksum then
      ({ r2 with state := .find_start_byte }, some false)
    else
      ({ r2 with state := .find_end_byte }, none)
  | .find_end_byte =>
    if recChar ≠ EB then
      ({ r with state := .find_start_byte }, some false)
    else
      ({ r.setRecStack { r.recStack with end_byte := recChar } with
          state := .find_start_byte }, some true)

/-- One iteration of the `while (true)` loop of `parseFeedback`. `avail` is
`some recChar` when `_serial->available()` holds and `_serial->read()` yields
`recChar`, and `none` when no byte is available; `fire` is the value of
`timoutTimer.fire()` in this iteration, read only when the `switch` did not
return. The second component is `some b` when the iteration returns `b`. -/
def loopBody (r : Receiver) (avail : Option Nat) (fire : Bool) : Receiver × Option Bool :=
  let afterSwitch : Receiver × Option Bool :=
    match avail with
    | some recChar => r.switchState recChar
    | none => (r, none)
  match afterSwitch.2 with
  | some b => (afterSwitch.1, some b)
  | none =>
    if fire then
      ({ afterSwitch.1 with state := .find_start_byte }, some false)
    else
      (afterSwitch.1, none)

/-- One call of `parseFeedback()`, run over the loop iterations that the
environment supplies (per iteration: the byte available, the timer reading).
The result holds the object at the end, `some b` when the call returned `b`
(`none` when the supplied iterations ended with the loop still polling), and
the iterations left over for later calls. -/
def parseFeedback (r : Receiver) :
    List (Option Nat × Bool) → Receiver × Option Bool × List (Option Nat × Bool)
  | [] => (r, none, [])
  | (avail, fire) :: rest =>
    match r.loopBody avail fire with
    | (r1, some b) => (r1, some b, rest)
    | (r1, none) => parseFeedback r1 rest

end Receiver

/-- Loop iterations in which the given bytes arrive one at a time and the
timer never fires. -/
def noTimeout (bytes : List Nat) : List (Option Nat × Bool) :=
  bytes.map (fun recChar => (some recChar, false))

/-- The ten bytes of a packet, in wire order. -/
def stack_t.toBytes (s : stack_t) : List Nat :=
  [ s.start_byte, s.version, s.length, s.command, s.feedback,
    s.paramMSB, s.paramLSB, s.checksumMSB, s.checksumLSB, s.end_byte ]

/-- A valid frame: the four fixed bytes have their constant values and the
checksum bytes are the big-endian split of `calChecksum` of the packet. -/
def stack_t.isValidFrame (s : stack_t) : Prop :=
  s.start_byte = 0x7E ∧ s.version = 0xFF ∧ s.length = 0x06 ∧ s.end_byte = 0xEF ∧
  s.checksumMSB = (DFPlayerMini.calChecksum s >>> 8) % 256 ∧
  s.checksumLSB = DFPlayerMini.calChecksum s % 256

instance (s : stack_t) : Decidable s.isValidFrame := by
  unfold stack_t.isValidFrame; infer_instance

/-- Two packets differ in exactly one of the six content bytes (`version`,
`length`, `command`, `feedback`, `paramMSB`, `paramLSB`) and agree on the
other five. -/
def stack_t.differInOneContentByte (s1 s2 : stack_t) : Prop :=
  (s1.version ≠ s2.version ∧ s1.length = s2.length ∧ s1.command = s2.command ∧
    s1.feedback = s2.feedback ∧ s1.paramMSB = s2.paramMSB ∧ s1.paramLSB = s2.paramLSB) ∨
  (s1.version = s2.version ∧ s1.length ≠ s2.length ∧ s1.command = s2.command ∧
    s1.feedback = s2.feedback ∧ s1.paramMSB = s2.paramMSB ∧ s1.paramLSB = s2.paramLSB) ∨
  (s1.version = s2.version ∧ s1.length = s2.length ∧ s1.command ≠ s2.command ∧
    s1.feedback = s2.feedback ∧ s1.paramMSB = s2.paramMSB ∧ s1.paramLSB = s2.paramLSB) ∨
  (s1.version = s2.version ∧ s1.length = s2.length ∧ s1.command = s2.command ∧
    s1.feedback ≠ s2.feedback ∧ s1.paramMSB = s2.paramMSB ∧ s1.paramLSB = s2.paramLSB) ∨
  (s1.version = s2.version ∧ s1.length = s2.length ∧ s1.command = s2.command ∧
    s1.feedback = s2.feedback ∧ s1.paramMSB ≠ s2.paramMSB ∧ s1.paramLSB = s2.paramLSB) ∨
  (s1.version = s2.version ∧ s1.length = s2.length ∧ s1.command = s2.command ∧
    s1.feedback = s2.feedback ∧ s1.paramMSB = s2.paramMSB ∧ s1.paramLSB ≠ s2.paramLSB)

instance (s1 s2 : stack_t) : Decidable (s1.differInOneContentByte s2) := by
  unfold stack_t.differInOneContentByte; infer_instance

/-- The arguments of an encoder call lie in the range of the parameter types
of the member function: `uint16_t` for `playTrack`, `uint8_t` for the
arguments of `playFolderTrack`, `setVolume` and `playbackSource`. -/
def Command.wellTyped (c : Command) : Prop :=
  match c with
  | .playTrack trackNum => trackNum < 65536
  | .playFolderTrack folderNum trackNum => folderNum < 256 ∧ trackNum < 256
  | .setVolume volume => volume < 256
  | .playbackSource source => source < 256
  | _ => True

instance (c : Command) : Decidable c.wellTyped := by
  cases c <;> unfold Command.wellTyped <;> infer_instance

/-! ## Frame receiver of the specification

The library compiles no receiver: `parseFeedback` is disabled text. The
receiver below follows section 4.3 of the specification and uses the
checksum engine `calChecksum` of the source.
-/

namespace FrameReceiver

end FrameReceiver

/-! ## Auxiliary facts -/

open DFPlayerMini

/-- Bitwise complement of a non-negative integer. -/
theorem compl_ofNat (n : Nat) : ~~~ (Int.ofNat n) = -(n : Int) - 1 := by
  show Int.negSucc n = -(n : Int) - 1
  rw [Int.negSucc_eq]
  omega

/-- The checksum is the residue of the negated content sum modulo `2 ^ 16`. -/
theorem calChecksum_eq_emod (s : stack_t) :
    ((calChecksum s : Nat) : Int) = (-(s.contentSum : Int)) % 65536 := by
  unfold calChecksum stack_t.contentSum
  rw [compl_ofNat]
  omega

/-- The checksum fits in sixteen bits. -/
theorem calChecksum_lt (s : stack_t) : calChecksum s < 65536 := by
  have h := calChecksum_eq_emod s
  omega

/-- Closed form of the checksum when the content sum does not exceed `2 ^ 16`. -/
theorem calChecksum_of_sum_le (s : stack_t) (h : s.contentSum ≤ 65536) :
    calChecksum s = (65536 - s.contentSum) % 65536 := by
  have h1 := calChecksum_eq_emod s
  omega

/-- The checksum does not read the checksum fields it is stored in. -/
theorem calChecksum_setChecksum (this : DFPlayerMini) :
    calChecksum (setChecksum this)._sendStack = calChecksum this._sendStack := rfl

/-- After `setChecksum` the two stored bytes are the big-endian split of the
checksum of the packet that holds them. -/
theorem setChecksum_stored (this : DFPlayerMini) :
    (setChecksum this)._sendStack.checksumMSB * 256 +
        (setChecksum this)._sendStack.checksumLSB =
      calChecksum (setChecksum this)._sendStack := by
  rw [calChecksum_setChecksum]
  have h := calChecksum_lt this._sendStack
  show (calChecksum this._sendStack >>> 8) % 256 * 256 +
      calChecksum this._sendStack % 256 = calChecksum this._sendStack
  rw [Nat.shiftRight_eq_div_pow]
  omega

/-- Every encoder call ends in `setChecksum`. -/
theorem command_stores_checksum (c : Command) (this : DFPlayerMini) :
    (c.apply this)._sendStack.checksumMSB * 256 + (c.apply this)._sendStack.checksumLSB =
      calChecksum (c.apply this)._sendStack := by
  cases c <;> exact setChecksum_stored _

/-- No encoder call writes the feedback byte. -/
theorem command_keeps_feedback (c : Command) (this : DFPlayerMini) :
    (c.apply this)._sendStack.feedback = this._sendStack.feedback := by
  cases c <;> rfl

/-- No public call writes the feedback byte. -/
theorem call_keeps_feedback (c : Call) (this : DFPlayerMini) :
    (c.apply this)._sendStack.feedback = this._sendStack.feedback := by
  cases c with
  | encode cmd => exact command_keeps_feedback cmd this
  | getStackBytes => rfl
  | getStackRecord => rfl
  | setStack b => rfl

/-- A sequence of public calls leaves the feedback byte as it was. -/
theorem run_feedback (calls : List Call) (this : DFPlayerMini) :
    (run calls this)._sendStack.feedback = this._sendStack.feedback := by
  induction calls generalizing this with
  | nil => rfl
  | cons c rest ih =>
    show (run rest (c.apply this))._sendStack.feedback = this._sendStack.feedback
    rw [ih, call_keeps_feedback]

/-! ## Checksum engine -/

/-- C1: for every six content bytes in 0..255 (and whatever the four other
fields hold) `calChecksum` returns the 16-bit two's-complement negation of
their untruncated integer sum: the 16-bit complement of the sum plus one,
reduced modulo 65536, which is `(65536 - sum) mod 65536`; the value is a
16-bit word that added to the sum gives 0 modulo 65536. -/
theorem calChecksum_twos_complement
    (start_byte version length command feedback paramMSB paramLSB
      checksumMSB checksumLSB end_byte : Nat)
    (hv : version < 256) (hl : length < 256) (hc : command < 256)
    (hf : feedback < 256) (hm : paramMSB < 256) (hp : paramLSB < 256) :
    calChecksum ⟨start_byte, version, length, command, feedback, paramMSB,
        paramLSB, checksumMSB, checksumLSB, end_byte⟩ =
      ((65535 - (version + length + command + feedback + paramMSB + paramLSB)) + 1) % 65536 ∧
    calChecksum ⟨start_byte, version, length, command, feedback, paramMSB,
        paramLSB, checksumMSB, checksumLSB, end_byte⟩ =
      (65536 - (version + length + command + feedback + paramMSB + paramLSB)) % 65536 ∧
    calChecksum ⟨start_byte, version, length, command, feedback, paramMSB,
        paramLSB, checksumMSB, checksumLSB, end_byte⟩ < 65536 ∧
    (calChecksum ⟨start_byte, version, length, command, feedback, paramMSB,
        paramLSB, checksumMSB, checksumLSB, end_byte⟩ +
      (version + length + command + feedback + paramMSB + paramLSB)) % 65536 = 0 := by
  have h := calChecksum_eq_emod ⟨start_byte, version, length, command, feedback, paramMSB,
    paramLSB, checksumMSB, checksumLSB, end_byte⟩
  simp only [stack_t.contentSum] at h
  omega

/-- Witness for C1: the content bytes FF 06 03 01 00 05 have sum 270 and
checksum 65266. -/
theorem calChecksum_twos_complement_witness :
    (0xFF < 256 ∧ 0x06 < 256 ∧ 0x03 < 256 ∧ 0x01 < 256 ∧ 0x00 < 256 ∧ 0x05 < 256) ∧
    calChecksum ⟨0x7E, 0xFF, 0x06, 0x03, 0x01, 0x00, 0x05, 0, 0, 0xEF⟩ = 65266 := by
  refine ⟨by decide, ?_⟩
  have h := (calChecksum_twos_complement 0x7E 0xFF 0x06 0x03 0x01 0x00 0x05 0 0 0xEF
    (by decide) (by decide) (by decide) (by decide) (by decide) (by decide)).2.1
  rw [h]

/-- C2: checksum round trip. In any prior encoder state, and in particular in
any state reached from either constructor flag, every encoder operation with
every argument value leaves a frame whose stored checksum bytes, read
big-endian, equal `calChecksum` recomputed from that frame's own fields. -/
theorem encoder_checksum_round_trip :
    (∀ (this : DFPlayerMini) (c : Command),
      (c.apply this)._sendStack.checksumMSB * 256 + (c.apply this)._sendStack.checksumLSB =
        calChecksum (c.apply this)._sendStack) ∧
    (∀ (feedback : Bool) (recvInit : stack_t) (calls : List Call) (c : Command),
      (c.apply (run calls (new feedback recvInit)))._sendStack.checksumMSB * 256 +
          (c.apply (run calls (new feedback recvInit)))._sendStack.checksumLSB =
        calChecksum (c.apply (run calls (new feedback recvInit)))._sendStack) :=
  ⟨fun this c => command_stores_checksum c this,
   fun _ _ _ c => command_stores_checksum c _⟩

/-! ## Parameter policy of the encoder -/

/-- C3: for every volume `v` in 0..255, in any prior state, after
`setVolume(v)` the outbound frame has `paramLSB = min(v, 30)` and
`paramMSB = 0`. -/
theorem setVolume_param (this : DFPlayerMini) (v : Nat) (hv : v < 256) :
    (this.setVolume v)._sendStack.paramLSB = min v 30 ∧
    (this.setVolume v)._sendStack.paramMSB = 0 := by
  have _ := hv
  refine ⟨?_, rfl⟩
  show (if v ≤ LIMIT.MAX_VOLUME then v else LIMIT.MAX_VOLUME) = min v 30
  simp only [LIMIT.MAX_VOLUME]
  split <;> omega

/-- Witness for C3: volume 200 is stored as 30. -/
theorem setVolume_param_witness :
    200 < 256 ∧
    ((new true sendStackInit).setVolume 200)._sendStack.paramLSB = min 200 30 ∧
    ((new true sendStackInit).setVolume 200)._sendStack.paramMSB = 0 :=
  ⟨by decide, setVolume_param (new true sendStackInit) 200 (by decide)⟩

/-- C4: for every track number `t` in 0..65535, in any prior state, after
`playTrack(t)` the parameter read big-endian, `paramMSB * 256 + paramLSB`,
equals `min(t, 2999)`; `paramMSB` is the high byte and `paramLSB` the low
byte of `min(t, 2999)`. -/
theorem playTrack_param (this : DFPlayerMini) (t : Nat) (ht : t < 65536) :
    (this.playTrack t)._sendStack.paramMSB * 256 +
        (this.playTrack t)._sendStack.paramLSB = min t 2999 ∧
    (this.playTrack t)._sendStack.paramMSB = min t 2999 / 256 ∧
    (this.playTrack t)._sendStack.paramLSB = min t 2999 % 256 := by
  have _ := ht
  have hclamp : (if t ≤ LIMIT.MAX_ROOT_TRACK then t else LIMIT.MAX_ROOT_TRACK) = min t 2999 := by
    simp only [LIMIT.MAX_ROOT_TRACK]
    split <;> omega
  have hmsb : (this.playTrack t)._sendStack.paramMSB = (min t 2999 >>> 8) % 256 := by
    show ((if t ≤ LIMIT.MAX_ROOT_TRACK then t else LIMIT.MAX_ROOT_TRACK) >>> 8) % 256 = _
    rw [hclamp]
  have hlsb : (this.playTrack t)._sendStack.paramLSB = (min t 2999 &&& 0xFF) % 256 := by
    show ((if t ≤ LIMIT.MAX_ROOT_TRACK then t else LIMIT.MAX_ROOT_TRACK) &&& 0xFF) % 256 = _
    rw [hclamp]
  have hand : min t 2999 &&& 0xFF = min t 2999 % 256 :=
    Nat.and_pow_two_sub_one_eq_mod (min t 2999) 8
  rw [hmsb, hlsb, hand, Nat.shiftRight_eq_div_pow]
  omega

/-- Witness for C4: track 65535 is stored as 2999 = 0x0BB7. -/
theorem playTrack_param_witness :
    65535 < 65536 ∧
    ((new false sendStackInit).playTrack 65535)._sendStack.paramMSB * 256 +
        ((new false sendStackInit).playTrack 65535)._sendStack.paramLSB = min 65535 2999 :=
  ⟨by decide, (playTrack_param (new false sendStackInit) 65535 (by decide)).1⟩

/-- C5: for every folder number `f` and track number `t` in 0..255, in any
prior state, after `playFolderTrack(f, t)` the folder byte `paramMSB` lies in
[1, 99] and equals `max(1, min(f, 99))`: 0 is raised to 1, values above 99
are lowered to 99, values in 1..99 pass through unchanged. -/
theorem playFolderTrack_folder (this : DFPlayerMini) (f t : Nat)
    (hf : f < 256) (ht : t < 256) :
    (this.playFolderTrack f t)._sendStack.paramMSB = max 1 (min f 99) ∧
    1 ≤ (this.playFolderTrack f t)._sendStack.paramMSB ∧
    (this.playFolderTrack f t)._sendStack.paramMSB ≤ 99 ∧
    (f = 0 → (this.playFolderTrack f t)._sendStack.paramMSB = 1) ∧
    (99 < f → (this.playFolderTrack f t)._sendStack.paramMSB = 99) ∧
    (1 ≤ f → f ≤ 99 → (this.playFolderTrack f t)._sendStack.paramMSB = f) := by
  have _ := hf
  have _ := ht
  have h : (this.playFolderTrack f t)._sendStack.paramMSB =
      (if (if f ≥ LIMIT.MIN_FOLDER then f else LIMIT.MIN_FOLDER) ≤ LIMIT.MAX_FOLDER
        then (if f ≥ LIMIT.MIN_FOLDER then f else LIMIT.MIN_FOLDER)
        else LIMIT.MAX_FOLDER) := rfl
  rw [h]
  simp only [LIMIT.MIN_FOLDER, LIMIT.MAX_FOLDER]
  split <;> split <;> omega

/-- Witness for C5: folder 0 is raised to 1. -/
theorem playFolderTrack_folder_witness :
    (0 < 256 ∧ 7 < 256) ∧
    ((new true sendStackInit).playFolderTrack 0 7)._sendStack.paramMSB = max 1 (min 0 99) :=
  ⟨by decide,
   (playFolderTrack_folder (new true sendStackInit) 0 7 (by decide) (by decide)).1⟩

/-- C6: for every folder number `f` and track number `t` in 0..255, in any
prior state, after `playFolderTrack(f, t)` the track byte `paramLSB` equals
`max(t, 1)`: `t = 0` is raised to 1 and every `t` in 1..255, 255 included, is
passed through unchanged, with no upper clamp. -/
theorem playFolderTrack_track (this : DFPlayerMini) (f t : Nat)
    (hf : f < 256) (ht : t < 256) :
    (this.playFolderTrack f t)._sendStack.paramLSB = max t 1 ∧
    (t = 0 → (this.playFolderTrack f t)._sendStack.paramLSB = 1) ∧
    (1 ≤ t → (this.playFolderTrack f t)._sendStack.paramLSB = t) := by
  have _ := hf
  have _ := ht
  have h : (this.playFolderTrack f t)._sendStack.paramLSB =
      (if t ≥ LIMIT.MIN_FOLDER_TRACK then t else LIMIT.MIN_FOLDER_TRACK) := rfl
  rw [h]
  simp only [LIMIT.MIN_FOLDER_TRACK]
  split <;> omega

/-- Witness for C6: track 255 is passed through unchanged. -/
theorem playFolderTrack_track_witness :
    (3 < 256 ∧ 255 < 256) ∧
    ((new true sendStackInit).playFolderTrack 3 255)._sendStack.paramLSB = 255 :=
  ⟨by decide,
   (playFolderTrack_track (new true sendStackInit) 3 255 (by decide) (by decide)).2.2
     (by decide)⟩

/-- C7: for every source value `s` in 0..255, in any prior state, after
`playbackSource(s)` the frame has `paramMSB = 0`, and `paramLSB = s` when `s`
is 1 (USB), 2 (memory card), 3 (line-in) or 4 (sleep) and `paramLSB = 2`
(memory card) for every other value; no input is rejected. -/
theorem playbackSource_param (this : DFPlayerMini) (s : Nat) (hs : s < 256) :
    (this.playbackSource s)._sendStack.paramMSB = 0 ∧
    (s = 1 ∨ s = 2 ∨ s = 3 ∨ s = 4 → (this.playbackSource s)._sendStack.paramLSB = s) ∧
    (s ≠ 1 → s ≠ 2 → s ≠ 3 → s ≠ 4 → (this.playbackSource s)._sendStack.paramLSB = 2) := by
  have _ := hs
  have h : (this.playbackSource s)._sendStack.paramLSB =
      (if s = PLAYBACK_SRC.U ∨ s = PLAYBACK_SRC.TF ∨ s = PLAYBACK_SRC.AUX ∨
          s = PLAYBACK_SRC.SLEEP then s else PLAYBACK_SRC.TF) := rfl
  rw [h]
  simp only [PLAYBACK_SRC.U, PLAYBACK_SRC.TF, PLAYBACK_SRC.AUX, PLAYBACK_SRC.SLEEP]
  refine ⟨rfl, ?_, ?_⟩
  · intro hin
    rw [if_pos hin]
  · intro h1 h2 h3 h4
    rw [if_neg (by omega)]

/-- Witness for C7: the out-of-enum source 9 yields the memory-card source 2. -/
theorem playbackSource_param_witness :
    9 < 256 ∧
    ((new true sendStackInit).playbackSource 9)._sendStack.paramMSB = 0 ∧
    ((new true sendStackInit).playbackSource 9)._sendStack.paramLSB = 2 :=
  ⟨by decide,
   (playbackSource_param (new true sendStackInit) 9 (by decide)).1,
   (playbackSource_param (new true sendStackInit) 9 (by decide)).2.2
     (by decide) (by decide) (by decide) (by decide)⟩

/-- C8: each of the eight parameterless operations `playNext`, `playPrevious`,
`pause`, `incVolume`, `decVolume`, `standbyMode`, `normalMode` and `reset`,
applied in any prior encoder state, leaves `paramMSB = 0` and
`paramLSB = 0`. -/
theorem parameterless_params_zero (this : DFPlayerMini) :
    (this.playNext._sendStack.paramMSB = 0 ∧ this.playNext._sendStack.paramLSB = 0) ∧
    (this.playPrevious._sendStack.paramMSB = 0 ∧ this.playPrevious._sendStack.paramLSB = 0) ∧
    (this.pause._sendStack.paramMSB = 0 ∧ this.pause._sendStack.paramLSB = 0) ∧
    (this.incVolume._sendStack.paramMSB = 0 ∧ this.incVolume._sendStack.paramLSB = 0) ∧
    (this.decVolume._sendStack.paramMSB = 0 ∧ this.decVolume._sendStack.paramLSB = 0) ∧
    (this.standbyMode._sendStack.paramMSB = 0 ∧ this.standbyMode._sendStack.paramLSB = 0) ∧
    (this.normalMode._sendStack.paramMSB = 0 ∧ this.normalMode._sendStack.paramLSB = 0) ∧
    (this.reset._sendStack.paramMSB = 0 ∧ this.reset._sendStack.paramLSB = 0) :=
  ⟨⟨rfl, rfl⟩, ⟨rfl, rfl⟩, ⟨rfl, rfl⟩, ⟨rfl, rfl⟩, ⟨rfl, rfl⟩, ⟨rfl, rfl⟩, ⟨rfl, rfl⟩,
   ⟨rfl, rfl⟩⟩

/-- C9: each encoder operation, in any prior state and for every argument
value, sets the command byte to its wire identifier: playNext 0x01,
playPrevious 0x02, playTrack 0x03, incVolume 0x04, decVolume 0x05,
setVolume 0x06, playbackSource 0x09, standbyMode 0x0A, normalMode 0x0B,
reset 0x0C, pause 0x0E, playFolderTrack 0x0F. -/
theorem command_identifiers (this : DFPlayerMini) (t f v s : Nat) :
    this.playNext._sendStack.command = 0x01 ∧
    this.playPrevious._sendStack.command = 0x02 ∧
    (this.playTrack t)._sendStack.command = 0x03 ∧
    this.incVolume._sendStack.command = 0x04 ∧
    this.decVolume._sendStack.command = 0x05 ∧
    (this.setVolume v)._sendStack.command = 0x06 ∧
    (this.playbackSource s)._sendStack.command = 0x09 ∧
    this.standbyMode._sendStack.command = 0x0A ∧
    this.normalMode._sendStack.command = 0x0B ∧
    this.reset._sendStack.command = 0x0C ∧
    this.pause._sendStack.command = 0x0E ∧
    (this.playFolderTrack f t)._sendStack.command = 0x0F :=
  ⟨rfl, rfl, rfl, rfl, rfl, rfl, rfl, rfl, rfl, rfl, rfl, rfl⟩

/-! ## Feedback flag -/

/-- C10: the feedback flag is fixed by construction. An encoder constructed
with `feedback = true` has feedback byte 1, one constructed with
`feedback = false` has feedback byte 0, and after any finite sequence of
encoder operations and of `setStack` / `getStack` calls, with any arguments,
the outbound frame's feedback byte still has that value. -/
theorem feedback_fixed (recvInit : stack_t) (calls : List Call) :
    (new true recvInit)._sendStack.feedback = 1 ∧
    (new false recvInit)._sendStack.feedback = 0 ∧
    (run calls (new true recvInit))._sendStack.feedback = 1 ∧
    (run calls (new false recvInit))._sendStack.feedback = 0 :=
  ⟨rfl, rfl, run_feedback calls (new true recvInit), run_feedback calls (new false recvInit)⟩

/-! ## Frame invariants over call sequences -/

/-- No encoder call writes the start, version, length or end byte. -/
theorem command_keeps_constants (c : Command) (this : DFPlayerMini) :
    (c.apply this)._sendStack.start_byte = this._sendStack.start_byte ∧
    (c.apply this)._sendStack.version = this._sendStack.version ∧
    (c.apply this)._sendStack.length = this._sendStack.length ∧
    (c.apply this)._sendStack.end_byte = this._sendStack.end_byte := by
  cases c <;> exact ⟨rfl, rfl, rfl, rfl⟩

/-- No public call writes the start, version, length or end byte. -/
theorem call_keeps_constants (c : Call) (this : DFPlayerMini) :
    (c.apply this)._sendStack.start_byte = this._sendStack.start_byte ∧
    (c.apply this)._sendStack.version = this._sendStack.version ∧
    (c.apply this)._sendStack.length = this._sendStack.length ∧
    (c.apply this)._sendStack.end_byte = this._sendStack.end_byte := by
  cases c with
  | encode cmd => exact command_keeps_constants cmd this
  | getStackBytes => exact ⟨rfl, rfl, rfl, rfl⟩
  | getStackRecord => exact ⟨rfl, rfl, rfl, rfl⟩
  | setStack b => exact ⟨rfl, rfl, rfl, rfl⟩

/-- A sequence of public calls leaves the four fixed bytes as they were. -/
theorem run_constants (calls : List Call) (this : DFPlayerMini) :
    (run calls this)._sendStack.start_byte = this._sendStack.start_byte ∧
    (run calls this)._sendStack.version = this._sendStack.version ∧
    (run calls this)._sendStack.length = this._sendStack.length ∧
    (run calls this)._sendStack.end_byte = this._sendStack.end_byte := by
  induction calls generalizing this with
  | nil => exact ⟨rfl, rfl, rfl, rfl⟩
  | cons c rest ih =>
    have h1 := ih (c.apply this)
    have h2 := call_keeps_constants c this
    have hrun : run (c :: rest) this = run rest (c.apply this) := rfl
    rw [hrun]
    exact ⟨h1.1.trans h2.1, h1.2.1.trans h2.2.1, h1.2.2.1.trans h2.2.2.1,
      h1.2.2.2.trans h2.2.2.2⟩

/-- The calls that are not encoder operations leave the outbound frame as it
is. -/
theorem call_keeps_sendStack (c : Call) (this : DFPlayerMini)
    (h : ∀ cmd, c ≠ Call.encode cmd) : (c.apply this)._sendStack = this._sendStack := by
  cases c with
  | encode cmd => exact absurd rfl (h cmd)
  | getStackBytes => rfl
  | getStackRecord => rfl
  | setStack b => rfl

/-- A public call keeps the stored checksum equal to the computed one, and an
encoder call makes it so. -/
theorem call_checksum (c : Call) (this : DFPlayerMini)
    (h : (this._sendStack.checksumMSB * 256 + this._sendStack.checksumLSB =
        calChecksum this._sendStack) ∨ ∃ cmd, c = Call.encode cmd) :
    (c.apply this)._sendStack.checksumMSB * 256 + (c.apply this)._sendStack.checksumLSB =
      calChecksum (c.apply this)._sendStack := by
  cases c with
  | encode cmd => exact command_stores_checksum cmd this
  | getStackBytes =>
    rcases h with h | ⟨cmd, hc⟩
    · exact h
    · cases hc
  | getStackRecord =>
    rcases h with h | ⟨cmd, hc⟩
    · exact h
    · cases hc
  | setStack b =>
    rcases h with h | ⟨cmd, hc⟩
    · exact h
    · cases hc

/-- A sequence of public calls ends with the stored checksum equal to the
computed one when it started so or when it contains an encoder call. -/
theorem run_checksum (calls : List Call) (this : DFPlayerMini)
    (h : (this._sendStack.checksumMSB * 256 + this._sendStack.checksumLSB =
        calChecksum this._sendStack) ∨ ∃ cmd, Call.encode cmd ∈ calls) :
    (run calls this)._sendStack.checksumMSB * 256 + (run calls this)._sendStack.checksumLSB =
      calChecksum (run calls this)._sendStack := by
  induction calls generalizing this with
  | nil =>
    rcases h with h | ⟨cmd, hc⟩
    · exact h
    · cases hc
  | cons c rest ih =>
    have hrun : run (c :: rest) this = run rest (c.apply this) := rfl
    rw [hrun]
    apply ih
    rcases h with h | ⟨cmd, hc⟩
    · exact Or.inl (call_checksum c this (Or.inl h))
    · rcases List.mem_cons.mp hc with hhead | htail
      · exact Or.inl (call_checksum c this (Or.inr ⟨cmd, hhead.symm⟩))
      · exact Or.inr ⟨cmd, htail⟩

/-- C11: in every encoder state reachable from construction by any finite
sequence of public calls with any arguments, the outbound frame has
`start_byte = 0x7E`, `version = 0xFF`, `length = 0x06` and
`end_byte = 0xEF`. -/
theorem frame_constants_invariant (feedback : Bool) (recvInit : stack_t)
    (calls : List Call) :
    (run calls (new feedback recvInit))._sendStack.start_byte = 0x7E ∧
    (run calls (new feedback recvInit))._sendStack.version = 0xFF ∧
    (run calls (new feedback recvInit))._sendStack.length = 0x06 ∧
    (run calls (new feedback recvInit))._sendStack.end_byte = 0xEF := by
  have h := run_constants calls (new feedback recvInit)
  have h0 : (new feedback recvInit)._sendStack.start_byte = 0x7E ∧
      (new feedback recvInit)._sendStack.version = 0xFF ∧
      (new feedback recvInit)._sendStack.length = 0x06 ∧
      (new feedback recvInit)._sendStack.end_byte = 0xEF := by
    cases feedback <;> exact ⟨rfl, rfl, rfl, rfl⟩
  exact ⟨h.1.trans h0.1, h.2.1.trans h0.2.1, h.2.2.1.trans h0.2.2.1,
    h.2.2.2.trans h0.2.2.2⟩

/-- Counterexample to C12: in the state immediately after construction with
`feedback = true` (the empty call sequence) the stored checksum bytes are 0
and 0, while `calChecksum` of the content fields FF 06 00 01 00 00 is 65274
(0xFEFA). -/
theorem checksum_invariant_fails_at_construction :
    (run [] (new true sendStackInit))._sendStack.checksumMSB = 0 ∧
    (run [] (new true sendStackInit))._sendStack.checksumLSB = 0 ∧
    calChecksum (run [] (new true sendStackInit))._sendStack = 65274 ∧
    ¬ ((run [] (new true sendStackInit))._sendStack.checksumMSB * 256 +
        (run [] (new true sendStackInit))._sendStack.checksumLSB =
      calChecksum (run [] (new true sendStackInit))._sendStack) := by
  decide

/-- C12 (amended): in every encoder state reached from construction by a
finite sequence of public calls that contains at least one encoder operation,
the outbound frame's checksum bytes equal `calChecksum` of its content
fields: `checksumMSB * 256 + checksumLSB = calChecksum(version, length,
command, feedback, paramMSB, paramLSB)`. In the state immediately after
construction both checksum bytes are 0. -/
theorem checksum_invariant_after_encode (feedback : Bool) (recvInit : stack_t)
    (calls : List Call) (h : ∃ cmd, Call.encode cmd ∈ calls) :
    ((run calls (new feedback recvInit))._sendStack.checksumMSB * 256 +
        (run calls (new feedback recvInit))._sendStack.checksumLSB =
      calChecksum (run calls (new feedback recvInit))._sendStack) ∧
    (new feedback recvInit)._sendStack.checksumMSB = 0 ∧
    (new feedback recvInit)._sendStack.checksumLSB = 0 := by
  refine ⟨run_checksum calls _ (Or.inr h), ?_, ?_⟩ <;> cases feedback <;> rfl

/-- Witness for C12 (amended): a `getStack`, then `playTrack(5)`, then a
`setStack`. -/
theorem checksum_invariant_after_encode_witness :
    (∃ cmd, Call.encode cmd ∈
      [Call.getStackBytes, Call.encode (Command.playTrack 5), Call.setStack [1, 2, 3]]) ∧
    (run [Call.getStackBytes, Call.encode (Command.playTrack 5), Call.setStack [1, 2, 3]]
        (new true sendStackInit))._sendStack.checksumMSB * 256 +
      (run [Call.getStackBytes, Call.encode (Command.playTrack 5), Call.setStack [1, 2, 3]]
        (new true sendStackInit))._sendStack.checksumLSB =
    calChecksum
      (run [Call.getStackBytes, Call.encode (Command.playTrack 5), Call.setStack [1, 2, 3]]
        (new true sendStackInit))._sendStack :=
  ⟨⟨Command.playTrack 5, by simp⟩,
   (checksum_invariant_after_encode true sendStackInit
      [Call.getStackBytes, Call.encode (Command.playTrack 5), Call.setStack [1, 2, 3]]
      ⟨Command.playTrack 5, by simp⟩).1⟩

/-! ## Wire format and accessors -/

/-- After an encoder call the outbound frame is determined by the call and by
the five bytes of the prior frame that no encoder call writes. -/
theorem command_sendStack_congr (c : Command) (p q : DFPlayerMini)
    (hs : p._sendStack.start_byte = q._sendStack.start_byte)
    (hv : p._sendStack.version = q._sendStack.version)
    (hl : p._sendStack.length = q._sendStack.length)
    (hf : p._sendStack.feedback = q._sendStack.feedback)
    (he : p._sendStack.end_byte = q._sendStack.end_byte) :
    (c.apply p)._sendStack = (c.apply q)._sendStack := by
  cases c <;>
    simp only [Command.apply, playNext, playPrevious, playTrack, playFolderTrack, pause,
      incVolume, decVolume, setVolume, playbackSource, standbyMode, normalMode, reset,
      setChecksum, calChecksum, hs, hv, hl, hf, he]

/-- No encoder call writes the receive packet. -/
theorem command_keeps_recvStack (c : Command) (this : DFPlayerMini) :
    (c.apply this)._recvStack = this._recvStack := by
  cases c <;> rfl

/-- Counterexample to C13: after `playTrack(5)` on an encoder constructed with
`feedback = true`, `getStack` does not yield 7E FF 06 03 01 00 05 FF FB EF,
and `calChecksum` over the content bytes FF 06 03 01 00 05 is not 0xFFFB. -/
theorem spec_frame_is_not_encoder_output :
    ((new true sendStackInit).playTrack 5).getStackBytes ≠
      [0x7E, 0xFF, 0x06, 0x03, 0x01, 0x00, 0x05, 0xFF, 0xFB, 0xEF] ∧
    calChecksum ⟨0x7E, 0xFF, 0x06, 0x03, 0x01, 0x00, 0x05, 0xFF, 0xFB, 0xEF⟩ ≠
      0xFF * 256 + 0xFB := by
  decide

/-- C13 (amended): the 10-byte sequence 7E FF 06 03 01 00 05 FE F2 EF is the
frame for play-track 5 with feedback requested: it is exactly the ten bytes
`getStack` returns after `playTrack(5)` on an encoder constructed with
`feedback = true`, and its checksum bytes FE F2 equal `calChecksum` over the
content bytes FF 06 03 01 00 05. -/
theorem playTrack_five_frame (recvInit : stack_t) :
    ((new true recvInit).playTrack 5).getStackBytes =
      [0x7E, 0xFF, 0x06, 0x03, 0x01, 0x00, 0x05, 0xFE, 0xF2, 0xEF] ∧
    calChecksum ⟨0x7E, 0xFF, 0x06, 0x03, 0x01, 0x00, 0x05, 0xFE, 0xF2, 0xEF⟩ =
      0xFE * 256 + 0xF2 := by
  have h : ((new true recvInit).playTrack 5).getStackBytes =
      ((new true sendStackInit).playTrack 5).getStackBytes := rfl
  rw [h]
  decide

/-- C14: `getStack(uint8_t*)` writes exactly ten bytes in wire order: index 0
`start_byte`, 1 `version`, 2 `length`, 3 `command`, 4 `feedback`,
5 `paramMSB`, 6 `paramLSB`, 7 `checksumMSB`, 8 `checksumLSB`, 9 `end_byte`,
so both 16-bit fields appear most significant byte first; and for every frame
built by an encoder operation `bytes[7] * 256 + bytes[8]` is `calChecksum`
over `bytes[1..6]`. -/
theorem getStackBytes_wire_order (this : DFPlayerMini) (c : Command) :
    this.getStackBytes.length = 10 ∧
    this.getStackBytes.getD 0 0 = this._sendStack.start_byte ∧
    this.getStackBytes.getD 1 0 = this._sendStack.version ∧
    this.getStackBytes.getD 2 0 = this._sendStack.length ∧
    this.getStackBytes.getD 3 0 = this._sendStack.command ∧
    this.getStackBytes.getD 4 0 = this._sendStack.feedback ∧
    this.getStackBytes.getD 5 0 = this._sendStack.paramMSB ∧
    this.getStackBytes.getD 6 0 = this._sendStack.paramLSB ∧
    this.getStackBytes.getD 7 0 = this._sendStack.checksumMSB ∧
    this.getStackBytes.getD 8 0 = this._sendStack.checksumLSB ∧
    this.getStackBytes.getD 9 0 = this._sendStack.end_byte ∧
    (c.apply this).getStackBytes.getD 7 0 * 256 + (c.apply this).getStackBytes.getD 8 0 =
      calChecksum
        { start_byte := (c.apply this).getStackBytes.getD 0 0
          version := (c.apply this).getStackBytes.getD 1 0
          length := (c.apply this).getStackBytes.getD 2 0
          command := (c.apply this).getStackBytes.getD 3 0
          feedback := (c.apply this).getStackBytes.getD 4 0
          paramMSB := (c.apply this).getStackBytes.getD 5 0
          paramLSB := (c.apply this).getStackBytes.getD 6 0
          checksumMSB := (c.apply this).getStackBytes.getD 7 0
          checksumLSB := (c.apply this).getStackBytes.getD 8 0
          end_byte := (c.apply this).getStackBytes.getD 9 0 } :=
  ⟨rfl, rfl, rfl, rfl, rfl, rfl, rfl, rfl, rfl, rfl, rfl, command_stores_checksum c this⟩

/-- C15: idempotence. For every encoder operation and every argument value,
in any prior state, applying the operation twice in succession with the same
arguments yields the same encoder state and the same ten `getStack` bytes as
applying it once. -/
theorem encoder_idempotent (this : DFPlayerMini) (c : Command) :
    c.apply (c.apply this) = c.apply this ∧
    (c.apply (c.apply this)).getStackBytes = (c.apply this).getStackBytes := by
  have hk := command_keeps_constants c this
  have h1 : (c.apply (c.apply this))._sendStack = (c.apply this)._sendStack :=
    command_sendStack_congr c (c.apply this) this hk.1 hk.2.1 hk.2.2.1
      (command_keeps_feedback c this) hk.2.2.2
  have h2 : (c.apply (c.apply this))._recvStack = (c.apply this)._recvStack :=
    command_keeps_recvStack c (c.apply this)
  have hstate : c.apply (c.apply this) = c.apply this := by
    cases hx : c.apply (c.apply this) with
    | mk s1 r1 =>
      cases hy : c.apply this with
      | mk s2 r2 =>
        rw [hx, hy] at h1 h2
        simp only at h1 h2
        rw [h1, h2]
  exact ⟨hstate, by rw [hstate]⟩

/-- C16: no history is retained. For two encoders constructed with the same
feedback flag and driven by arbitrary finite sequences of prior calls,
applying the same operation with the same arguments to both yields the same
outbound frame and the same ten `getStack` bytes; the frame is the one the
operation yields on a freshly constructed encoder with that flag. -/
theorem encoder_frame_history_free (feedback : Bool) (recvInit1 recvInit2 : stack_t)
    (calls1 calls2 : List Call) (c : Command) :
    (c.apply (run calls1 (new feedback recvInit1)))._sendStack =
      (c.apply (run calls2 (new feedback recvInit2)))._sendStack ∧
    (c.apply (run calls1 (new feedback recvInit1))).getStackBytes =
      (c.apply (run calls2 (new feedback recvInit2))).getStackBytes ∧
    (c.apply (run calls1 (new feedback recvInit1)))._sendStack =
      (c.apply (new feedback recvInit2))._sendStack := by
  have key : ∀ (r : stack_t) (calls : List Call),
      (c.apply (run calls (new feedback r)))._sendStack =
        (c.apply (new feedback recvInit2))._sendStack := by
    intro r calls
    have hk := run_constants calls (new feedback r)
    have hf := run_feedback calls (new feedback r)
    have h0 : (new feedback r)._sendStack = (new feedback recvInit2)._sendStack := by
      cases feedback <;> rfl
    apply command_sendStack_congr
    · rw [hk.1, h0]
    · rw [hk.2.1, h0]
    · rw [hk.2.2.1, h0]
    · rw [hf, h0]
    · rw [hk.2.2.2, h0]
  have h12 : (c.apply (run calls1 (new feedback recvInit1)))._sendStack =
      (c.apply (run calls2 (new feedback recvInit2)))._sendStack :=
    (key recvInit1 calls1).trans (key recvInit2 calls2).symm
  refine ⟨h12, ?_, key recvInit1 calls1⟩
  show DFPlayerMini.getStackBytes _ = DFPlayerMini.getStackBytes _
  unfold DFPlayerMini.getStackBytes
  rw [h12]

/-- C17: `setStack(bytes)` loads a 10-byte array into the receive packet field
by field in wire order (`bytes[0]` to `start_byte`, `[1]` to `version`, `[2]`
to `length`, `[3]` to `command`, `[4]` to `feedback`, `[5]` to `paramMSB`,
`[6]` to `paramLSB`, `[7]` to `checksumMSB`, `[8]` to `checksumLSB`, `[9]` to
`end_byte`) for every array contents, with no validation, and leaves the
outbound frame unchanged. -/
theorem setStack_loads_fields (this : DFPlayerMini)
    (b0 b1 b2 b3 b4 b5 b6 b7 b8 b9 : Nat) :
    (this.setStack [b0, b1, b2, b3, b4, b5, b6, b7, b8, b9])._recvStack =
      { start_byte := b0
        version := b1
        length := b2
        command := b3
        feedback := b4
        paramMSB := b5
        paramLSB := b6
        checksumMSB := b7
        checksumLSB := b8
        end_byte := b9 } ∧
    (this.setStack [b0, b1, b2, b3, b4, b5, b6, b7, b8, b9])._sendStack = this._sendStack :=
  ⟨rfl, rfl⟩

/-! ## Receive state machine -/

/-- In `find_checksum_LSB` the `switch` stores the byte, recomputes the
checksum of the outbound frame, and goes on to `find_end_byte` without
returning, whatever the byte and the accumulated fields are. -/
theorem switchState_checksum_LSB (obj : DFPlayerMini) (recChar : Nat) :
    Receiver.switchState ⟨obj, .find_checksum_LSB⟩ recChar =
      (⟨{ obj.setChecksum with
            _recvStack := { obj._recvStack with checksumLSB := recChar } },
          .find_end_byte⟩, none) := by
  simp [Receiver.switchState, Receiver.setRecStack, Receiver.recStack, setChecksum]

/-- In `find_start_byte` bytes other than the start marker are consumed with
no effect. -/
theorem parseFeedback_skips_garbage (r : Receiver) (hr : r.state = .find_start_byte)
    (garbage : List Nat) (hg : ∀ g ∈ garbage, g ≠ 0x7E) (rest : List Nat) :
    r.parseFeedback (noTimeout (garbage ++ rest)) = r.parseFeedback (noTimeout rest) := by
  induction garbage with
  | nil => rfl
  | cons g gs ih =>
    have hg0 : g ≠ 0x7E := hg g (List.mem_cons_self g gs)
    have hstep : r.loopBody (some g) false = (r, none) := by
      simp [Receiver.loopBody, Receiver.switchState, hr, SB, hg0]
    have ih1 := ih (fun x hx => hg x (List.mem_cons_of_mem g hx))
    show Receiver.parseFeedback r ((some g, false) :: noTimeout (gs ++ rest)) = _
    rw [Receiver.parseFeedback, hstep]
    exact ih1

/-- Started in `find_start_byte` and fed the ten bytes of a packet whose four
fixed bytes have their constant values, one call of `parseFeedback` returns
`true` on the tenth byte with the packet accumulated. -/
theorem parseFeedback_frame (obj : DFPlayerMini) (f : stack_t)
    (hs : f.start_byte = 0x7E) (hv : f.version = 0xFF) (hl : f.length = 0x06)
    (he : f.end_byte = 0xEF) :
    Receiver.parseFeedback ⟨obj, .find_start_byte⟩ (noTimeout f.toBytes) =
      (⟨{ obj.setChecksum with _recvStack := f }, .find_start_byte⟩, some true, []) := by
  obtain ⟨sb, v, l, c, fb, pm, pl, cm, cl, eb⟩ := f
  simp only at hs hv hl he
  subst hs hv hl he
  simp [Receiver.parseFeedback, noTimeout, stack_t.toBytes, Receiver.loopBody,
    Receiver.switchState, Receiver.setRecStack, Receiver.recStack, SB, VER, LEN, EB,
    setChecksum]

/-- C20: the receive state machine resynchronises after noise. For every
finite sequence of garbage bytes none of which is the start marker 0x7E,
followed by the ten bytes of a valid frame, with no timeout, `parseFeedback`
started in `find_start_byte` stays there, unchanged and without returning,
while it consumes the garbage (every prefix of it), and then returns `true`
on the last byte of the frame, all input consumed, with the accumulated frame
equal to the valid frame and the state back at `find_start_byte`. -/
theorem parseFeedback_resynchronises (obj : DFPlayerMini) (garbage : List Nat)
    (f : stack_t) (hg : ∀ g ∈ garbage, g ≠ 0x7E) (hf : f.isValidFrame) (k : Nat) :
    Receiver.parseFeedback ⟨obj, .find_start_byte⟩ (noTimeout (garbage.take k)) =
      (⟨obj, .find_start_byte⟩, none, []) ∧
    (Receiver.parseFeedback ⟨obj, .find_start_byte⟩
      (noTimeout (garbage ++ f.toBytes))).2.1 = some true ∧
    (Receiver.parseFeedback ⟨obj, .find_start_byte⟩
      (noTimeout (garbage ++ f.toBytes))).2.2 = [] ∧
    (Receiver.parseFeedback ⟨obj, .find_start_byte⟩
      (noTimeout (garbage ++ f.toBytes))).1.recStack = f ∧
    (Receiver.parseFeedback ⟨obj, .find_start_byte⟩
      (noTimeout (garbage ++ f.toBytes))).1.state = .find_start_byte := by
  have hframe := parseFeedback_frame obj f hf.1 hf.2.1 hf.2.2.1 hf.2.2.2.1
  have hall := parseFeedback_skips_garbage ⟨obj, .find_start_byte⟩ rfl garbage hg f.toBytes
  have hpre := parseFeedback_skips_garbage ⟨obj, .find_start_byte⟩ rfl (garbage.take k)
    (fun g hmem => hg g (List.mem_of_mem_take hmem)) []
  rw [List.append_nil] at hpre
  rw [hall, hframe, hpre]
  exact ⟨rfl, rfl, rfl, rfl, rfl⟩

/-- Witness for C20: the garbage bytes 00 55 EF followed by the valid frame
7E FF 06 03 01 00 05 FE F2 EF. -/
theorem parseFeedback_resynchronises_witness :
    ((∀ g ∈ [0x00, 0x55, 0xEF], g ≠ 0x7E) ∧
      (⟨0x7E, 0xFF, 0x06, 0x03, 0x01, 0x00, 0x05, 0xFE, 0xF2, 0xEF⟩ : stack_t).isValidFrame) ∧
    (Receiver.parseFeedback ⟨new true sendStackInit, .find_start_byte⟩
      (noTimeout ([0x00, 0x55, 0xEF] ++
        (⟨0x7E, 0xFF, 0x06, 0x03, 0x01, 0x00, 0x05, 0xFE, 0xF2, 0xEF⟩ : stack_t).toBytes))).2.1
      = some true :=
  ⟨⟨by decide, by decide⟩,
   (parseFeedback_resynchronises (new true sendStackInit) [0x00, 0x55, 0xEF]
      ⟨0x7E, 0xFF, 0x06, 0x03, 0x01, 0x00, 0x05, 0xFE, 0xF2, 0xEF⟩
      (by decide) (by decide) 0).2.1⟩

/-- C21: in the receive state machine a byte that fails a fixed-constant
check ends the current call of `parseFeedback` with `false` and leaves the
state at `find_start_byte`: in `find_ver_byte` any byte other than 0xFF, in
`find_len_byte` any byte other than 0x06, in `find_end_byte` any byte other
than 0xEF, whatever the timer reads and whatever input follows. The matching
byte is stored and advances `find_ver_byte` to `find_len_byte` and
`find_len_byte` to `find_command_byte` without returning; in `find_end_byte`
the byte 0xEF is stored and the call returns `true` with the state at
`find_start_byte`. -/
theorem parseFeedback_constant_checks (obj : DFPlayerMini) (bv bl be : Nat) (fire : Bool)
    (rest : List (Option Nat × Bool))
    (hv : bv ≠ 0xFF) (hl : bl ≠ 0x06) (he : be ≠ 0xEF) :
    Receiver.parseFeedback ⟨obj, .find_ver_byte⟩ ((some bv, fire) :: rest) =
      (⟨obj, .find_start_byte⟩, some false, rest) ∧
    Receiver.parseFeedback ⟨obj, .find_len_byte⟩ ((some bl, fire) :: rest) =
      (⟨obj, .find_start_byte⟩, some false, rest) ∧
    Receiver.parseFeedback ⟨obj, .find_end_byte⟩ ((some be, fire) :: rest) =
      (⟨obj, .find_start_byte⟩, some false, rest) ∧
    Receiver.loopBody ⟨obj, .find_ver_byte⟩ (some 0xFF) false =
      (⟨{ obj with _recvStack := { obj._recvStack with version := 0xFF } },
        .find_len_byte⟩, none) ∧
    Receiver.loopBody ⟨obj, .find_len_byte⟩ (some 0x06) false =
      (⟨{ obj with _recvStack := { obj._recvStack with length := 0x06 } },
        .find_command_byte⟩, none) ∧
    Receiver.parseFeedback ⟨obj, .find_end_byte⟩ ((some 0xEF, fire) :: rest) =
      (⟨{ obj with _recvStack := { obj._recvStack with end_byte := 0xEF } },
        .find_start_byte⟩, some true, rest) := by
  refine ⟨?_, ?_, ?_, ?_, ?_, ?_⟩ <;>
    simp [Receiver.parseFeedback, Receiver.loopBody, Receiver.switchState,
      Receiver.setRecStack, Receiver.recStack, VER, LEN, EB, hv, hl, he]

/-- Witness for C21: the bytes 00, 07 and 00 fail the version, length and end
checks. -/
theorem parseFeedback_constant_checks_witness :
    (0x00 ≠ 0xFF ∧ 0x07 ≠ 0x06 ∧ 0x00 ≠ 0xEF) ∧
    Receiver.parseFeedback ⟨new true sendStackInit, .find_ver_byte⟩
        ((some 0x00, false) :: noTimeout [0x06, 0x03]) =
      (⟨new true sendStackInit, .find_start_byte⟩, some false, noTimeout [0x06, 0x03]) :=
  ⟨by decide,
   (parseFeedback_constant_checks (new true sendStackInit) 0x00 0x07 0x00 false
      (noTimeout [0x06, 0x03]) (by decide) (by decide) (by decide)).1⟩

/-! ## Saturating clamps, buffers and accessors -/

/-- C22: saturating clamps are equivalent to passing the boundary value. In
any prior state: for every `t > 2999`, `playTrack(t)` yields the same object
and the same ten bytes (checksum included) as `playTrack(2999)`; for every
`v > 30`, `setVolume(v)` as `setVolume(30)`; for every `f > 99`,
`playFolderTrack(f, ft)` as `playFolderTrack(99, ft)`;
`playFolderTrack(0, ft)` as `playFolderTrack(1, ft)`; and, for every folder
`g`, `playFolderTrack(g, 0)` as `playFolderTrack(g, 1)`. In-range arguments are
encoded unchanged: a track `tin ≤ 2999` as the 16-bit parameter, a volume
`vin ≤ 30` as `paramLSB`, a folder `1 ≤ fin ≤ 99` as `paramMSB`, a folder
track `1 ≤ ftin` as `paramLSB`. -/
theorem saturating_clamps (this : DFPlayerMini) (t v f ft g tin vin fin ftin : Nat)
    (ht : 2999 < t) (hv : 30 < v) (hf : 99 < f)
    (htin : tin ≤ 2999) (hvin : vin ≤ 30) (hfin1 : 1 ≤ fin) (hfin2 : fin ≤ 99)
    (hftin : 1 ≤ ftin) :
    (this.playTrack t = this.playTrack 2999 ∧
      (this.playTrack t).getStackBytes = (this.playTrack 2999).getStackBytes) ∧
    (this.setVolume v = this.setVolume 30 ∧
      (this.setVolume v).getStackBytes = (this.setVolume 30).getStackBytes) ∧
    (this.playFolderTrack f ft = this.playFolderTrack 99 ft ∧
      (this.playFolderTrack f ft).getStackBytes =
        (this.playFolderTrack 99 ft).getStackBytes) ∧
    (this.playFolderTrack 0 ft = this.playFolderTrack 1 ft ∧
      (this.playFolderTrack 0 ft).getStackBytes =
        (this.playFolderTrack 1 ft).getStackBytes) ∧
    (this.playFolderTrack g 0 = this.playFolderTrack g 1 ∧
      (this.playFolderTrack g 0).getStackBytes =
        (this.playFolderTrack g 1).getStackBytes) ∧
    (this.playTrack tin)._sendStack.paramMSB * 256 +
      (this.playTrack tin)._sendStack.paramLSB = tin ∧
    (this.setVolume vin)._sendStack.paramLSB = vin ∧
    (this.playFolderTrack fin ftin)._sendStack.paramMSB = fin ∧
    (this.playFolderTrack fin ftin)._sendStack.paramLSB = ftin := by
  have e1 : this.playTrack t = this.playTrack 2999 := by
    have hnot : ¬ t ≤ 2999 := by omega
    simp only [playTrack, LIMIT.MAX_ROOT_TRACK, if_neg hnot, le_refl, if_true]
  have e2 : this.setVolume v = this.setVolume 30 := by
    have hnot : ¬ v ≤ 30 := by omega
    simp only [setVolume, LIMIT.MAX_VOLUME, if_neg hnot, le_refl, if_true]
  have e3 : this.playFolderTrack f ft = this.playFolderTrack 99 ft := by
    have h1 : f ≥ 1 := by omega
    have hnot : ¬ f ≤ 99 := by omega
    have h99 : (99 : Nat) ≥ 1 := by omega
    simp only [playFolderTrack, LIMIT.MIN_FOLDER, LIMIT.MAX_FOLDER, if_pos h1, if_neg hnot,
      if_pos h99, le_refl, if_true]
  have e4 : this.playFolderTrack 0 ft = this.playFolderTrack 1 ft := rfl
  have e5 : this.playFolderTrack g 0 = this.playFolderTrack g 1 := rfl
  refine ⟨⟨e1, by rw [e1]⟩, ⟨e2, by rw [e2]⟩, ⟨e3, by rw [e3]⟩, ⟨e4, by rw [e4]⟩,
    ⟨e5, by rw [e5]⟩, ?_, ?_, ?_, ?_⟩
  · have hmsb : (this.playTrack tin)._sendStack.paramMSB = (tin >>> 8) % 256 := by
      show ((if tin ≤ LIMIT.MAX_ROOT_TRACK then tin else LIMIT.MAX_ROOT_TRACK) >>> 8) % 256 = _
      rw [if_pos (show tin ≤ LIMIT.MAX_ROOT_TRACK from htin)]
    have hlsb : (this.playTrack tin)._sendStack.paramLSB = (tin &&& 0xFF) % 256 := by
      show ((if tin ≤ LIMIT.MAX_ROOT_TRACK then tin else LIMIT.MAX_ROOT_TRACK) &&& 0xFF) % 256
        = _
      rw [if_pos (show tin ≤ LIMIT.MAX_ROOT_TRACK from htin)]
    have hand : tin &&& 0xFF = tin % 256 := Nat.and_pow_two_sub_one_eq_mod tin 8
    rw [hmsb, hlsb, hand, Nat.shiftRight_eq_div_pow]
    omega
  · show (if vin ≤ LIMIT.MAX_VOLUME then vin else LIMIT.MAX_VOLUME) = vin
    rw [if_pos (show vin ≤ LIMIT.MAX_VOLUME from hvin)]
  · show (if (if fin ≥ LIMIT.MIN_FOLDER then fin else LIMIT.MIN_FOLDER) ≤ LIMIT.MAX_FOLDER
        then (if fin ≥ LIMIT.MIN_FOLDER then fin else LIMIT.MIN_FOLDER)
        else LIMIT.MAX_FOLDER) = fin
    rw [if_pos (show fin ≥ LIMIT.MIN_FOLDER from hfin1),
      if_pos (show fin ≤ LIMIT.MAX_FOLDER from hfin2)]
  · show (if ftin ≥ LIMIT.MIN_FOLDER_TRACK then ftin else LIMIT.MIN_FOLDER_TRACK) = ftin
    rw [if_pos (show ftin ≥ LIMIT.MIN_FOLDER_TRACK from hftin)]

/-- Witness for C22: track 65535, volume 255, folder 200 against the
boundaries 2999, 30, 99; in-range track 5, volume 17, folder 42, folder
track 255. -/
theorem saturating_clamps_witness :
    (2999 < 65535 ∧ 30 < 255 ∧ 99 < 200 ∧ 5 ≤ 2999 ∧ 17 ≤ 30 ∧ 1 ≤ 42 ∧ 42 ≤ 99 ∧
      1 ≤ 255) ∧
    ((new true sendStackInit).playTrack 65535).getStackBytes =
      ((new true sendStackInit).playTrack 2999).getStackBytes ∧
    ((new true sendStackInit).playFolderTrack 42 255)._sendStack.paramLSB = 255 :=
  ⟨by decide,
   (saturating_clamps (new true sendStackInit) 65535 255 200 7 3 5 17 42 255
      (by decide) (by decide) (by decide) (by decide) (by decide) (by decide) (by decide)
      (by decide)).1.2,
   (saturating_clamps (new true sendStackInit) 65535 255 200 7 3 5 17 42 255
      (by decide) (by decide) (by decide) (by decide) (by decide) (by decide) (by decide)
      (by decide)).2.2.2.2.2.2.2.2⟩

/-- C23: the encoder and the receive accumulator own separate buffers. Every
encoder operation, with any arguments, and both `getStack` overloads leave
the receive packet `_recvStack` unchanged, and `setStack` leaves the outbound
frame `_sendStack` unchanged. -/
theorem buffers_separate (this : DFPlayerMini) (c : Command) (b : List Nat) :
    (c.apply this)._recvStack = this._recvStack ∧
    (Call.getStackBytes.apply this)._recvStack = this._recvStack ∧
    (Call.getStackRecord.apply this)._recvStack = this._recvStack ∧
    (this.setStack b)._sendStack = this._sendStack ∧
    ((Call.setStack b).apply this)._sendStack = this._sendStack :=
  ⟨command_keeps_recvStack c this, rfl, rfl, rfl, rfl⟩

/-- C24: the two accessors for the outbound frame agree and are read-only. In
every state the ten bytes written by `getStack(uint8_t*)` are, in order, the
ten fields of the record returned by `getStack(stack_t&)`, that record equals
the outbound frame, and neither call changes the object. -/
theorem accessors_agree (this : DFPlayerMini) :
    this.getStackBytes =
      [ this.getStackRecord.start_byte, this.getStackRecord.version,
        this.getStackRecord.length, this.getStackRecord.command,
        this.getStackRecord.feedback, this.getStackRecord.paramMSB,
        this.getStackRecord.paramLSB, this.getStackRecord.checksumMSB,
        this.getStackRecord.checksumLSB, this.getStackRecord.end_byte ] ∧
    this.getStackBytes = this.getStackRecord.toBytes ∧
    this.getStackRecord = this._sendStack ∧
    Call.getStackBytes.apply this = this ∧
    Call.getStackRecord.apply this = this :=
  ⟨rfl, rfl, rfl, rfl, rfl⟩

/-- C25: serialise/load round trip. In every state, passing the ten bytes
produced by `getStack(uint8_t*)` to `setStack` makes the receive packet equal,
field for field, to the outbound frame; conversely, for every 10-byte array
`b`, the fields stored by `setStack(b)`, written out in struct field order,
are exactly `b`. -/
theorem serialise_load_round_trip (this : DFPlayerMini) (b : List Nat)
    (hb : b.length = 10) :
    (this.setStack this.getStackBytes)._recvStack = this._sendStack ∧
    (this.setStack b)._recvStack.toBytes = b := by
  refine ⟨rfl, ?_⟩
  match b, hb with
  | [b0, b1, b2, b3, b4, b5, b6, b7, b8, b9], _ => rfl

/-- Witness for C25: the array 7E FF 06 03 01 00 05 FE F2 EF. -/
theorem serialise_load_round_trip_witness :
    [0x7E, 0xFF, 0x06, 0x03, 0x01, 0x00, 0x05, 0xFE, 0xF2, 0xEF].length = 10 ∧
    ((new false sendStackInit).setStack
        [0x7E, 0xFF, 0x06, 0x03, 0x01, 0x00, 0x05, 0xFE, 0xF2, 0xEF])._recvStack.toBytes =
      [0x7E, 0xFF, 0x06, 0x03, 0x01, 0x00, 0x05, 0xFE, 0xF2, 0xEF] :=
  ⟨rfl,
   (serialise_load_round_trip (new false sendStackInit)
      [0x7E, 0xFF, 0x06, 0x03, 0x01, 0x00, 0x05, 0xFE, 0xF2, 0xEF] rfl).2⟩

/-! ## Checksum strength and range -/

/-- An encoder call stores the high and the low byte of the checksum of the
frame it leaves. -/
theorem command_checksum_bytes (c : Command) (this : DFPlayerMini) :
    (c.apply this)._sendStack.checksumMSB =
      (calChecksum (c.apply this)._sendStack >>> 8) % 256 ∧
    (c.apply this)._sendStack.checksumLSB = calChecksum (c.apply this)._sendStack % 256 := by
  cases c <;> exact ⟨rfl, rfl⟩

/-- After an encoder call with arguments in the range of their types, command
and parameter bytes add up to at least 1 and at most 15 + 99 + 255. -/
theorem command_content_bounds (c : Command) (this : DFPlayerMini) (hc : c.wellTyped) :
    1 ≤ (c.apply this)._sendStack.command + (c.apply this)._sendStack.paramMSB +
        (c.apply this)._sendStack.paramLSB ∧
    (c.apply this)._sendStack.command + (c.apply this)._sendStack.paramMSB +
        (c.apply this)._sendStack.paramLSB ≤ 369 := by
  cases c with
  | playNext => exact ⟨(by decide : 1 ≤ 0x01 + 0 + 0), (by decide : 0x01 + 0 + 0 ≤ 369)⟩
  | playPrevious => exact ⟨(by decide : 1 ≤ 0x02 + 0 + 0), (by decide : 0x02 + 0 + 0 ≤ 369)⟩
  | pause => exact ⟨(by decide : 1 ≤ 0x0E + 0 + 0), (by decide : 0x0E + 0 + 0 ≤ 369)⟩
  | incVolume => exact ⟨(by decide : 1 ≤ 0x04 + 0 + 0), (by decide : 0x04 + 0 + 0 ≤ 369)⟩
  | decVolume => exact ⟨(by decide : 1 ≤ 0x05 + 0 + 0), (by decide : 0x05 + 0 + 0 ≤ 369)⟩
  | standbyMode => exact ⟨(by decide : 1 ≤ 0x0A + 0 + 0), (by decide : 0x0A + 0 + 0 ≤ 369)⟩
  | normalMode => exact ⟨(by decide : 1 ≤ 0x0B + 0 + 0), (by decide : 0x0B + 0 + 0 ≤ 369)⟩
  | reset => exact ⟨(by decide : 1 ≤ 0x0C + 0 + 0), (by decide : 0x0C + 0 + 0 ≤ 369)⟩
  | playTrack t =>
    show 1 ≤ CONTROLCMD.PLAY_TRACK +
          ((if t ≤ LIMIT.MAX_ROOT_TRACK then t else LIMIT.MAX_ROOT_TRACK) >>> 8) % 256 +
          ((if t ≤ LIMIT.MAX_ROOT_TRACK then t else LIMIT.MAX_ROOT_TRACK) &&& 0xFF) % 256 ∧
        CONTROLCMD.PLAY_TRACK +
          ((if t ≤ LIMIT.MAX_ROOT_TRACK then t else LIMIT.MAX_ROOT_TRACK) >>> 8) % 256 +
          ((if t ≤ LIMIT.MAX_ROOT_TRACK then t else LIMIT.MAX_ROOT_TRACK) &&& 0xFF) % 256 ≤ 369
    have hle : (if t ≤ LIMIT.MAX_ROOT_TRACK then t else LIMIT.MAX_ROOT_TRACK) ≤ 2999 := by
      simp only [LIMIT.MAX_ROOT_TRACK]
      split <;> omega
    generalize (if t ≤ LIMIT.MAX_ROOT_TRACK then t else LIMIT.MAX_ROOT_TRACK) = u at hle
    rw [Nat.shiftRight_eq_div_pow]
    simp only [CONTROLCMD.PLAY_TRACK]
    omega
  | playFolderTrack f t =>
    have ht : t < 256 := hc.2
    show 1 ≤ CONTROLCMD.PLAY_FOLDER_TRACK +
          (if (if f ≥ LIMIT.MIN_FOLDER then f else LIMIT.MIN_FOLDER) ≤ LIMIT.MAX_FOLDER
            then (if f ≥ LIMIT.MIN_FOLDER then f else LIMIT.MIN_FOLDER)
            else LIMIT.MAX_FOLDER) +
          (if t ≥ LIMIT.MIN_FOLDER_TRACK then t else LIMIT.MIN_FOLDER_TRACK) ∧
        CONTROLCMD.PLAY_FOLDER_TRACK +
          (if (if f ≥ LIMIT.MIN_FOLDER then f else LIMIT.MIN_FOLDER) ≤ LIMIT.MAX_FOLDER
            then (if f ≥ LIMIT.MIN_FOLDER then f else LIMIT.MIN_FOLDER)
            else LIMIT.MAX_FOLDER) +
          (if t ≥ LIMIT.MIN_FOLDER_TRACK then t else LIMIT.MIN_FOLDER_TRACK) ≤ 369
    simp only [CONTROLCMD.PLAY_FOLDER_TRACK, LIMIT.MIN_FOLDER, LIMIT.MAX_FOLDER,
      LIMIT.MIN_FOLDER_TRACK]
    split <;> split <;> split <;> omega
  | setVolume v =>
    show 1 ≤ CONTROLCMD.SET_VOL + 0 +
          (if v ≤ LIMIT.MAX_VOLUME then v else LIMIT.MAX_VOLUME) ∧
        CONTROLCMD.SET_VOL + 0 +
          (if v ≤ LIMIT.MAX_VOLUME then v else LIMIT.MAX_VOLUME) ≤ 369
    simp only [CONTROLCMD.SET_VOL, LIMIT.MAX_VOLUME]
    split <;> omega
  | playbackSource src =>
    show 1 ≤ CONTROLCMD.SET_PLAYBACK_SRC + 0 +
          (if src = PLAYBACK_SRC.U ∨ src = PLAYBACK_SRC.TF ∨ src = PLAYBACK_SRC.AUX ∨
              src = PLAYBACK_SRC.SLEEP then src else PLAYBACK_SRC.TF) ∧
        CONTROLCMD.SET_PLAYBACK_SRC + 0 +
          (if src = PLAYBACK_SRC.U ∨ src = PLAYBACK_SRC.TF ∨ src = PLAYBACK_SRC.AUX ∨
              src = PLAYBACK_SRC.SLEEP then src else PLAYBACK_SRC.TF) ≤ 369
    simp only [CONTROLCMD.SET_PLAYBACK_SRC, PLAYBACK_SRC.U, PLAYBACK_SRC.TF,
      PLAYBACK_SRC.AUX, PLAYBACK_SRC.SLEEP]
    split <;> omega

/-- C26: the checksum detects every single-byte corruption of the content
fields. For two packets of bytes, the integer sums of the six content bytes
are at most 1530, `calChecksum` is equal on the two exactly when the sums are
equal, and when the packets differ in exactly one of `version`, `length`,
`command`, `feedback`, `paramMSB`, `paramLSB` and agree on the other five,
`calChecksum` returns different values. -/
theorem calChecksum_detects_corruption (s1 s2 : stack_t)
    (h1 : s1.isBytes) (h2 : s2.isBytes) :
    s1.contentSum ≤ 1530 ∧ s2.contentSum ≤ 1530 ∧
    (calChecksum s1 = calChecksum s2 ↔
      s1.version + s1.length + s1.command + s1.feedback + s1.paramMSB + s1.paramLSB =
        s2.version + s2.length + s2.command + s2.feedback + s2.paramMSB + s2.paramLSB) ∧
    (s1.differInOneContentByte s2 → calChecksum s1 ≠ calChecksum s2) := by
  have e1 := calChecksum_eq_emod s1
  have e2 := calChecksum_eq_emod s2
  unfold stack_t.isBytes at h1 h2
  unfold stack_t.differInOneContentByte
  simp only [stack_t.contentSum] at e1 e2 ⊢
  refine ⟨by omega, by omega, ⟨fun h => by omega, fun h => by omega⟩, ?_⟩
  intro hd
  rcases hd with h | h | h | h | h | h <;> omega

/-- Witness for C26: two packets of bytes that differ in the command byte
only. -/
theorem calChecksum_detects_corruption_witness :
    ((⟨0x7E, 0xFF, 0x06, 0x03, 0x01, 0x00, 0x05, 0xFE, 0xF2, 0xEF⟩ : stack_t).isBytes ∧
      (⟨0x7E, 0xFF, 0x06, 0x0F, 0x01, 0x00, 0x05, 0xFE, 0xF2, 0xEF⟩ : stack_t).isBytes) ∧
    calChecksum ⟨0x7E, 0xFF, 0x06, 0x03, 0x01, 0x00, 0x05, 0xFE, 0xF2, 0xEF⟩ ≠
      calChecksum ⟨0x7E, 0xFF, 0x06, 0x0F, 0x01, 0x00, 0x05, 0xFE, 0xF2, 0xEF⟩ :=
  ⟨⟨by decide, by decide⟩,
   (calChecksum_detects_corruption
      ⟨0x7E, 0xFF, 0x06, 0x03, 0x01, 0x00, 0x05, 0xFE, 0xF2, 0xEF⟩
      ⟨0x7E, 0xFF, 0x06, 0x0F, 0x01, 0x00, 0x05, 0xFE, 0xF2, 0xEF⟩
      (by decide) (by decide)).2.2.2 (by decide)⟩

/-- C27: no wraparound occurs for encoder frames. For every frame produced by
an encoder operation with arguments in the range of their types, on an
encoder constructed with either feedback flag and driven by any prior calls,
the stored 16-bit checksum `checksumMSB * 256 + checksumLSB` is exactly 65536
minus the integer sum of the six content bytes and lies in 0xFD89..0xFEFA
(64905..65274); `checksumMSB` is 0xFD or 0xFE and the checksum is not 0. -/
theorem encoder_checksum_range (feedback : Bool) (recvInit : stack_t)
    (calls : List Call) (c : Command) (hc : c.wellTyped) :
    (c.apply (run calls (new feedback recvInit)))._sendStack.checksumMSB * 256 +
        (c.apply (run calls (new feedback recvInit)))._sendStack.checksumLSB =
      65536 - ((c.apply (run calls (new feedback recvInit)))._sendStack.version +
        (c.apply (run calls (new feedback recvInit)))._sendStack.length +
        (c.apply (run calls (new feedback recvInit)))._sendStack.command +
        (c.apply (run calls (new feedback recvInit)))._sendStack.feedback +
        (c.apply (run calls (new feedback recvInit)))._sendStack.paramMSB +
        (c.apply (run calls (new feedback recvInit)))._sendStack.paramLSB) ∧
    64905 ≤ (c.apply (run calls (new feedback recvInit)))._sendStack.checksumMSB * 256 +
        (c.apply (run calls (new feedback recvInit)))._sendStack.checksumLSB ∧
    (c.apply (run calls (new feedback recvInit)))._sendStack.checksumMSB * 256 +
        (c.apply (run calls (new feedback recvInit)))._sendStack.checksumLSB ≤ 65274 ∧
    ((c.apply (run calls (new feedback recvInit)))._sendStack.checksumMSB = 0xFD ∨
      (c.apply (run calls (new feedback recvInit)))._sendStack.checksumMSB = 0xFE) ∧
    (c.apply (run calls (new feedback recvInit)))._sendStack.checksumMSB * 256 +
        (c.apply (run calls (new feedback recvInit)))._sendStack.checksumLSB ≠ 0 := by
  have hk := command_keeps_constants c (run calls (new feedback recvInit))
  have hkf := command_keeps_feedback c (run calls (new feedback recvInit))
  have hr := run_constants calls (new feedback recvInit)
  have hrf := run_feedback calls (new feedback recvInit)
  have hv : (c.apply (run calls (new feedback recvInit)))._sendStack.version = 255 := by
    rw [hk.2.1, hr.2.1]; cases feedback <;> rfl
  have hl : (c.apply (run calls (new feedback recvInit)))._sendStack.length = 6 := by
    rw [hk.2.2.1, hr.2.2.1]; cases feedback <;> rfl
  have hf : (c.apply (run calls (new feedback recvInit)))._sendStack.feedback ≤ 1 := by
    rw [hkf, hrf]
    cases feedback
    · exact (by decide : (0 : Nat) ≤ 1)
    · exact (by decide : (1 : Nat) ≤ 1)
  have hb := command_content_bounds c (run calls (new feedback recvInit)) hc
  have hbytes := command_checksum_bytes c (run calls (new feedback recvInit))
  have hsum := calChecksum_eq_emod (c.apply (run calls (new feedback recvInit)))._sendStack
  simp only [stack_t.contentSum] at hsum
  generalize (c.apply (run calls (new feedback recvInit)))._sendStack = s at *
  obtain ⟨hm, hlsb⟩ := hbytes
  rw [Nat.shiftRight_eq_div_pow] at hm
  omega

/-- Witness for C27: `playFolderTrack(99, 255)` with feedback requested gives
the least checksum, 0xFD89. -/
theorem encoder_checksum_range_witness :
    (Command.playFolderTrack 99 255).wellTyped ∧
    64905 ≤ ((Command.playFolderTrack 99 255).apply
        (run [] (new true sendStackInit)))._sendStack.checksumMSB * 256 +
      ((Command.playFolderTrack 99 255).apply
        (run [] (new true sendStackInit)))._sendStack.checksumLSB :=
  ⟨by decide,
   (encoder_checksum_range true sendStackInit [] (Command.playFolderTrack 99 255)
      (by decide)).2.1⟩

/-! ## Frame receiver of the specification -/

end DFPLAYERMINI
